import Mathlib

/-!
# Verification of the rag-api-server entry point (`src/main.rs`)

This file embeds the configuration / startup validation logic and the
request gate (`handle_request`, `static_response`) of the
LlamaEdge-RAG API server into Lean, and proves properties about them.

Modelling conventions:
* Rust `u64` / `usize` values are only parsed, compared for list length
  and copied by the code in scope; they are modelled as `Nat`.
* Rust `f32` score thresholds are never computed with in the code in
  scope (only copied between lists and structs); they are modelled by
  their raw bit pattern.
* External crates (`chat_prompts`, `clap`, `hyper`, `llama_core`) are
  modelled only through the narrow interfaces the code in scope calls:
  `PromptTemplateType` is abstracted to the single method the server
  queries (`has_system_prompt`), the inference backend dispatch is an
  abstract outcome, `mime_guess::from_path(..).first_or_text_plain()`
  and the filesystem are function parameters.
-/

/-- Bit-pattern model of a Rust `f32`.  The server only parses these
values and copies them from the CLI lists into `QdrantConfig`; no
arithmetic or comparison is performed on them in the code in scope. -/
structure F32 where
  bits : UInt32
deriving DecidableEq, Repr, Inhabited

/-- `chat_prompts::MergeRagContextPolicy` (external crate): where the
retrieved RAG context is merged into the conversation. -/
inductive MergeRagContextPolicy where
  | SystemMessage
  | LastUserMessage
deriving DecidableEq, Repr, Inhabited

/-- Abstraction of `chat_prompts::PromptTemplateType` (external crate):
the only thing `main.rs` ever asks of a prompt template value is
`has_system_prompt()`, so the type is modelled by that observation. -/
structure PromptTemplateType where
  has_system_prompt : Bool
deriving DecidableEq, Repr, Inhabited

/-- The fields of the `Cli` argument struct (`main.rs` lines 50-155)
that the startup validation and configuration construction read.
Fields that the claims never touch (GPU options, logging flags, socket
address, ...) are omitted; they are only logged or forwarded verbatim. -/
structure Cli where
  model_name : List String
  model_alias : List String
  ctx_size : List Nat
  prompt_template : List PromptTemplateType
  batch_size : List Nat
  ubatch_size : List Nat
  policy : MergeRagContextPolicy
  qdrant_url : String
  qdrant_collection_name : List String
  qdrant_limit : List Nat
  qdrant_score_threshold : List F32
deriving Repr

/-- `error::ServerError` as constructed by `main.rs`
(`ServerError::ArgumentError(String)` and `ServerError::Operation(String)`). -/
inductive ServerError where
  | ArgumentError (msg : String)
  | Operation (msg : String)
deriving DecidableEq, Repr

/-- Ways in which the startup code in `main` can abort: returning
`Err(ServerError)`, or a Rust index-out-of-bounds abort in the
`qdrant_config_vec` construction loop (`cli.qdrant_limit[idx]` /
`cli.qdrant_score_threshold[idx]`). -/
inductive StartupError where
  | serverError (e : ServerError)
  | indexOutOfBounds (msg : String)
deriving DecidableEq, Repr

/-- `QdrantConfig` (`main.rs` lines 720-726). -/
structure QdrantConfig where
  url : String
  collection_name : String
  limit : Nat
  score_threshold : F32
deriving DecidableEq, Repr

/-- The configuration assembled by a successful startup that the claims
are about: the per-collection Qdrant configs (stored in `SERVER_INFO`)
and the effective RAG merge policy (stored in `RagConfig.policy`). -/
structure ServerConfig where
  qdrant_config_vec : List QdrantConfig
  policy : MergeRagContextPolicy
deriving DecidableEq, Repr

/-- One iteration of the `qdrant_config_vec` construction loop
(`main.rs` lines 375-396): pick the limit (the single value when the
limit list has length 1, the `idx`-th entry otherwise) and likewise the
score threshold.  Rust's `v[idx]` panics when out of bounds; that is
modelled by `none`. -/
def mkQdrantConfig (cli : Cli) (idx : Nat) (col_name : String) : Option QdrantConfig :=
  match (if cli.qdrant_limit.length = 1 then cli.qdrant_limit.get? 0
         else cli.qdrant_limit.get? idx) with
  | none => none
  | some limit =>
    match (if cli.qdrant_score_threshold.length = 1 then cli.qdrant_score_threshold.get? 0
           else cli.qdrant_score_threshold.get? idx) with
    | none => none
    | some score_threshold =>
      some { url := cli.qdrant_url, collection_name := col_name,
             limit := limit, score_threshold := score_threshold }

/-- The `for (idx, col_name) in cli.qdrant_collection_name.iter().enumerate()`
loop of `main.rs` lines 374-396, accumulating the configs in order. -/
def mkConfigsAux (cli : Cli) : Nat → List String → Option (List QdrantConfig)
  | _, [] => some []
  | idx, col_name :: rest =>
    match mkQdrantConfig cli idx col_name with
    | none => none
    | some c =>
      match mkConfigsAux cli (idx + 1) rest with
      | none => none
      | some cs => some (c :: cs)

/-- The whole `qdrant_config_vec` construction; an out-of-bounds index
in the loop aborts the process. -/
def mkQdrantConfigs (cli : Cli) : Except StartupError (List QdrantConfig) :=
  match mkConfigsAux cli 0 cli.qdrant_collection_name with
  | some v => .ok v
  | none => .error (.indexOutOfBounds "index out of bounds in qdrant config loop")

/-- `cli.prompt_template[0]`, the chat model's prompt template (safe in
`main` because it is read only after the length-2 check). -/
def chatTemplate (cli : Cli) : PromptTemplateType :=
  (cli.prompt_template.get? 0).getD default

/-- The RAG-policy fixup of `main.rs` lines 410-416: start from the
configured policy and downgrade `SystemMessage` to `LastUserMessage`
when the chat prompt template has no system prompt. -/
def effectivePolicy (configured : MergeRagContextPolicy)
    (chat_template : PromptTemplateType) : MergeRagContextPolicy :=
  if configured = .SystemMessage && !chat_template.has_system_prompt then
    .LastUserMessage
  else
    configured

/-- The six model-related length checks of `main.rs` lines 195-264, in
source order: model names, model aliases, context sizes, batch sizes,
ubatch sizes, prompt templates must each list exactly two values. -/
def validate_models (cli : Cli) : Except StartupError Unit :=
  if cli.model_name.length ≠ 2 then
    .error (.serverError (.ArgumentError
      "LlamaEdge RAG API server requires a chat model and an embedding model."))
  else if cli.model_alias.length ≠ 2 then
    .error (.serverError (.ArgumentError
      "LlamaEdge RAG API server requires two model aliases: one for chat model, one for embedding model."))
  else if cli.ctx_size.length ≠ 2 then
    .error (.serverError (.ArgumentError
      "LlamaEdge RAG API server requires two context sizes: one for chat model, one for embedding model."))
  else if cli.batch_size.length ≠ 2 then
    .error (.serverError (.ArgumentError
      "LlamaEdge RAG API server requires two batch sizes: one for chat model, one for embedding model."))
  else if cli.ubatch_size.length ≠ 2 then
    .error (.serverError (.ArgumentError
      "LlamaEdge RAG API server requires two ubatch sizes: one for chat model, one for embedding model."))
  else if cli.prompt_template.length ≠ 2 then
    .error (.serverError (.ArgumentError
      "LlamaEdge RAG API server requires two prompt templates: one for chat model, one for embedding model."))
  else
    .ok ()

/-- The Qdrant-related checks of `main.rs` lines 313-344, in source
order: URL validity (`utils::is_valid_url`, a pure predicate on the URL
string, passed in as a parameter because `utils.rs` is out of scope),
then the two collection-count guards, transcribed with the exact
(duplicated) conjuncts the source uses. -/
def validate_qdrant (is_valid_url : String → Bool) (cli : Cli) : Except StartupError Unit :=
  if !is_valid_url cli.qdrant_url then
    .error (.serverError (.ArgumentError
      ("The URL of Qdrant REST API is invalid: " ++ cli.qdrant_url ++ ".")))
  else if cli.qdrant_collection_name.length ≠ cli.qdrant_limit.length
      ∧ cli.qdrant_limit.length > 1
      ∧ cli.qdrant_score_threshold.length > 1 then
    .error (.serverError (.ArgumentError
      "LlamaEdge RAG API server requires the same number of Qdrant collection names and limits; or the limit is only one value for all collections."))
  else if cli.qdrant_collection_name.length ≠ cli.qdrant_score_threshold.length
      ∧ cli.qdrant_score_threshold.length > 1
      ∧ cli.qdrant_score_threshold.length > 1 then
    .error (.serverError (.ArgumentError
      "LlamaEdge RAG API server requires the same number of Qdrant collection names and score thresholds; or the score threshold is only one value for all collections."))
  else
    .ok ()

/-- The configuration phase of `main` (`main.rs` lines 195-574): the
model-list checks, the Qdrant checks, the `qdrant_config_vec` loop and
the RAG-policy fixup, in source order, short-circuiting on the first
failure.  Initialization of the core context and binding of the
listener happen strictly after this phase succeeds. -/
def startup (is_valid_url : String → Bool) (cli : Cli) : Except StartupError ServerConfig :=
  match validate_models cli with
  | .error e => .error e
  | .ok _ =>
    match validate_qdrant is_valid_url cli with
    | .error e => .error e
    | .ok _ =>
      match mkQdrantConfigs cli with
      | .error e => .error e
      | .ok qdrant_config_vec =>
        .ok { qdrant_config_vec := qdrant_config_vec,
              policy := effectivePolicy cli.policy (chatTemplate cli) }

/-! ## Request handling (`handle_request`, `main.rs` lines 603-693) -/

/-- A `hyper` header value as observed by `handle_request`: either its
bytes form a visible-ASCII string (`to_str()` succeeds), or they do not
(`to_str()` fails with an error rendered as `e`).  An invalid value is
necessarily non-empty. -/
inductive HeaderValue where
  | valid (s : String)
  | invalid (e : String)
deriving DecidableEq, Repr

/-- `HeaderValue::is_empty` — zero bytes.  Invalid values hold at least
one (non-ASCII) byte. -/
def HeaderValue.is_empty : HeaderValue → Bool
  | .valid s => s.data.isEmpty
  | .invalid _ => false

/-- An HTTP response as far as the code in scope observes it: status
code, optional content-type header, body. -/
structure Response where
  status : Nat
  content_type : Option String
  body : String
deriving DecidableEq, Repr

namespace error

/-- Modelled from the spec: `error::unauthorized` lives in the
repository's `error.rs`, which is not in scope; per the spec
("AuthError — request rejected with an unauthorized status, no further
processing") it builds a response with the unauthorized (401) status
carrying the given message. -/
def unauthorized (msg : String) : Response :=
  { status := 401, content_type := none, body := msg }

end error

/-- Rust `str::split(" ")` (split on the single-space pattern), on the
character list of the string.  Adjacent separators yield empty fields,
exactly as in Rust. -/
def split_on_char (sep : Char) : List Char → List (List Char)
  | [] => [[]]
  | c :: rest =>
    if c = sep then [] :: split_on_char sep rest
    else
      match split_on_char sep rest with
      | [] => [[c]]
      | t :: ts => (c :: t) :: ts

/-- `auth_header.split(" ").nth(1).unwrap_or_default()` (`main.rs`
line 626): the second single-space-separated field, or empty. -/
def bearer_token (s : String) : List Char :=
  ((split_on_char ' ' s.data).get? 1).getD []

/-- The API-key gate of `handle_request` (`main.rs` lines 616-636):
`none` means the request proceeds; `some r` means it is answered with
the unauthorized response `r`.  A missing or empty header skips the
check entirely; a header whose bytes cannot be read as a string is
rejected outright; otherwise the second space-separated field is
compared against the configured key, if one is configured. -/
def authGate (auth_header : Option HeaderValue) (stored : Option String) : Option Response :=
  match auth_header with
  | none => none
  | some h =>
    if h.is_empty then none
    else
      match h with
      | .invalid e =>
        some (error.unauthorized ("Failed to get authorization header: " ++ e))
      | .valid s =>
        let api_key := bearer_token s
        match stored with
        | none => none
        | some stored_api_key =>
          if api_key ≠ stored_api_key.data then
            some (error.unauthorized "Invalid API key.")
          else
            none

/-- The root-path extraction of `main.rs` lines 608-613 for an HTTP
request path (which always begins with `/`): `PathBuf::iter` yields the
root `/` (consumed by the first `next()`), then the path components
with empty and `.` segments normalized away; `root_path` is `/`
followed by the first such component (or empty when there is none). -/
def rootPath (path : String) : String :=
  "/" ++ ⟨(((split_on_char '/' path.data).filter
      (fun s => s != [] && s != ['.'])).headD [])⟩

/-- The inbound request as far as `handle_request` observes it. -/
structure Request where
  path : String
  authorization : Option HeaderValue
deriving DecidableEq, Repr

/-- The outcome of `handle_request`: rejected with an unauthorized
response, answered directly (the `/echo` arm), dispatched to
`backend::handle_llama_request` (the `/v1` arm), or answered by
`static_response` (the catch-all arm). -/
inductive HandledResponse where
  | unauthorized (r : Response)
  | direct (r : Response)
  | llamaBackend
  | staticAsset (r : Response)
deriving DecidableEq, Repr

/-- `Response::new(Body::from("echo test"))`: status 200, no
content-type header, body `"echo test"`. -/
def echo_response : Response :=
  { status := 200, content_type := none, body := "echo test" }

/-- `static_response` (`main.rs` lines 695-718).  `fs` models
`std::fs::read` (file contents keyed by path, `none` when unreadable)
and `mime_from_path` models
`mime_guess::from_path(..).first_or_text_plain().to_string()`. -/
def static_response (fs : String → Option String) (mime_from_path : String → String)
    (path_str : String) (root : String) : Response :=
  let path := if path_str = "/" then "/index.html" else path_str
  match fs (root ++ "/" ++ path) with
  | some content =>
    { status := 200, content_type := some (mime_from_path path), body := content }
  | none =>
    { status := 404, content_type := some "text/html",
      body := (fs (root ++ "/404.html")).getD "" }

/-- The routing match of `main.rs` lines 657-661, on the extracted
root path. -/
def route_response (fs : String → Option String) (mime_from_path : String → String)
    (web_ui : String) (path : String) : HandledResponse :=
  match rootPath path with
  | "/echo" => .direct echo_response
  | "/v1" => .llamaBackend
  | _ => .staticAsset (static_response fs mime_from_path path web_ui)

/-- `handle_request` (`main.rs` lines 603-693): the API-key gate, then
routing by the first path segment.  `api_key` is the content of the
`LLAMA_API_KEY` cell (set from the `API_KEY` environment variable at
startup, or unset). -/
def handle_request (fs : String → Option String) (mime_from_path : String → String)
    (api_key : Option String) (web_ui : String) (req : Request) : HandledResponse :=
  match authGate req.authorization api_key with
  | some r => .unauthorized r
  | none => route_response fs mime_from_path web_ui req.path

/-! ## Helper lemmas -/

/-- Routing proper never produces an unauthorized outcome: the auth
gate is the only source of rejections in `handle_request`. -/
lemma route_response_ne_unauthorized (fs : String → Option String)
    (mime_from_path : String → String) (web_ui path : String) :
    ∀ r, route_response fs mime_from_path web_ui path ≠ .unauthorized r := by
  intro r
  unfold route_response
  split <;> simp

/-- Splitting a separator-free list yields the single whole field. -/
lemma split_on_char_no_sep (sep : Char) (l : List Char) (h : sep ∉ l) :
    split_on_char sep l = [l] := by
  induction l with
  | nil => rfl
  | cons c rest ih =>
    have hc : c ≠ sep := fun hcs => h (hcs ▸ List.mem_cons_self c rest)
    have hr : sep ∉ rest := fun hm => h (List.mem_cons_of_mem c hm)
    unfold split_on_char
    rw [if_neg hc, ih hr]

/-- Splitting around the first separator: a separator-free head field
followed by the split of the tail. -/
lemma split_on_char_append (sep : Char) (w k : List Char) (hw : sep ∉ w) :
    split_on_char sep (w ++ sep :: k) = w :: split_on_char sep k := by
  induction w with
  | nil => simp [split_on_char]
  | cons c w ih =>
    have hc : c ≠ sep := fun hcs => hw (hcs ▸ List.mem_cons_self c w)
    have hw2 : sep ∉ w := fun hm => hw (List.mem_cons_of_mem c hm)
    show split_on_char sep (c :: (w ++ sep :: k)) = (c :: w) :: split_on_char sep k
    rw [split_on_char, if_neg hc, ih hw2]

/-! ## Claims -/

/-- The `Cli` fields of a startup with two collection names, three
limits and one score threshold (as produced by
`--qdrant-collection-name a,b --qdrant-limit 1,2,3
--qdrant-score-threshold 0.4`); every other list is well-formed. -/
def cliBadLimits : Cli :=
  { model_name := ["chat-model", "embedding-model"]
    model_alias := ["default", "embedding"]
    ctx_size := [4096, 384]
    prompt_template := [{ has_system_prompt := true }, { has_system_prompt := false }]
    batch_size := [512, 512]
    ubatch_size := [512, 512]
    policy := .LastUserMessage
    qdrant_url := "http://127.0.0.1:6333"
    qdrant_collection_name := ["a", "b"]
    qdrant_limit := [1, 2, 3]
    qdrant_score_threshold := [{ bits := 0 }] }

/-- C1: the claim states startup succeeds only if the limit-list length
L lies in {1, C}, but the code's count guard (`main.rs` lines 328-335)
additionally requires the threshold list to have more than one entry
before it fires, so a startup with C = 2 collections, L = 3 limits and
T = 1 threshold passes validation and serves, silently ignoring the
extra limit — contradicting the requirement stated by the guard's own
error message. -/
theorem startup_accepts_extra_limits :
    cliBadLimits.qdrant_collection_name.length = 2 ∧
    cliBadLimits.qdrant_limit.length = 3 ∧
    cliBadLimits.qdrant_score_threshold.length = 1 ∧
    startup (fun _ => true) cliBadLimits = .ok
      { qdrant_config_vec :=
          [{ url := "http://127.0.0.1:6333", collection_name := "a",
             limit := 1, score_threshold := { bits := 0 } },
           { url := "http://127.0.0.1:6333", collection_name := "b",
             limit := 2, score_threshold := { bits := 0 } }],
        policy := .LastUserMessage } := by
  exact ⟨rfl, rfl, rfl, rfl⟩

/-- C2: with an API key configured and a non-empty `Authorization`
header whose carried token differs from the key, `handle_request`
answers with the 401 unauthorized response and neither dispatches to
the `/v1` backend handler nor to static-asset resolution. -/
theorem wrong_api_key_rejected (fs : String → Option String)
    (mime_from_path : String → String) (web_ui path s k : String)
    (hs : s.data ≠ []) (hk : bearer_token s ≠ k.data) :
    handle_request fs mime_from_path (some k) web_ui
      { path := path, authorization := some (.valid s) } =
      .unauthorized (error.unauthorized "Invalid API key.") ∧
    (error.unauthorized "Invalid API key.").status = 401 := by
  refine ⟨?_, rfl⟩
  unfold handle_request authGate
  simp [HeaderValue.is_empty, hs, hk]

/-- Witness for `wrong_api_key_rejected` at a concrete request. -/
theorem wrong_api_key_rejected_witness :
    handle_request (fun _ => none) (fun _ => "text/plain") (some "secret") "chatbot-ui"
      { path := "/v1/chat/completions", authorization := some (.valid "Bearer wrong") } =
      .unauthorized (error.unauthorized "Invalid API key.") :=
  (wrong_api_key_rejected (fun _ => none) (fun _ => "text/plain") "chatbot-ui"
    "/v1/chat/completions" "Bearer wrong" "secret" (by decide) (by decide)).1

/-- C3: with no API key configured, no request with an absent or
string-convertible `Authorization` header is ever rejected as
unauthorized; it always proceeds to routing. -/
theorem no_api_key_open_access (fs : String → Option String)
    (mime_from_path : String → String) (web_ui path : String)
    (hdr : Option HeaderValue)
    (h : hdr = none ∨ ∃ s, hdr = some (.valid s)) :
    handle_request fs mime_from_path none web_ui
      { path := path, authorization := hdr } =
      route_response fs mime_from_path web_ui path ∧
    ∀ r, route_response fs mime_from_path web_ui path ≠ .unauthorized r := by
  refine ⟨?_, route_response_ne_unauthorized fs mime_from_path web_ui path⟩
  rcases h with rfl | ⟨s, rfl⟩
  · rfl
  · unfold handle_request authGate
    cases he : (HeaderValue.valid s).is_empty <;> simp [he]

/-- Witness for `no_api_key_open_access` at a concrete request. -/
theorem no_api_key_open_access_witness :
    handle_request (fun _ => none) (fun _ => "text/plain") none "chatbot-ui"
      { path := "/v1/chat/completions", authorization := some (.valid "Bearer anything") } =
      route_response (fun _ => none) (fun _ => "text/plain") "chatbot-ui"
        "/v1/chat/completions" :=
  (no_api_key_open_access (fun _ => none) (fun _ => "text/plain") "chatbot-ui"
    "/v1/chat/completions" (some (.valid "Bearer anything")) (Or.inr ⟨_, rfl⟩)).1

/-- C8: when the `Authorization` header is absent or present but empty,
no API-key comparison happens even when a key is configured: the
request always proceeds to routing and is never rejected as
unauthorized. -/
theorem absent_or_empty_auth_skips_check (fs : String → Option String)
    (mime_from_path : String → String) (api_key : Option String) (web_ui path : String) :
    handle_request fs mime_from_path api_key web_ui
      { path := path, authorization := none } =
      route_response fs mime_from_path web_ui path ∧
    handle_request fs mime_from_path api_key web_ui
      { path := path, authorization := some (.valid "") } =
      route_response fs mime_from_path web_ui path ∧
    ∀ r, route_response fs mime_from_path web_ui path ≠ .unauthorized r := by
  exact ⟨rfl, rfl, route_response_ne_unauthorized fs mime_from_path web_ui path⟩

/-- C5: for a request that passes the auth gate, routing is decided by
the first path segment: `/echo` is answered directly with body
`"echo test"`, `/v1` is dispatched to the backend handler, everything
else falls back to static-asset resolution. -/
theorem routing_by_first_segment (fs : String → Option String)
    (mime_from_path : String → String) (api_key : Option String)
    (web_ui : String) (req : Request)
    (hauth : authGate req.authorization api_key = none) :
    (rootPath req.path = "/echo" →
      handle_request fs mime_from_path api_key web_ui req = .direct echo_response) ∧
    (rootPath req.path = "/v1" →
      handle_request fs mime_from_path api_key web_ui req = .llamaBackend) ∧
    (rootPath req.path ≠ "/echo" → rootPath req.path ≠ "/v1" →
      handle_request fs mime_from_path api_key web_ui req =
        .staticAsset (static_response fs mime_from_path req.path web_ui)) ∧
    echo_response.body = "echo test" := by
  have hroute : handle_request fs mime_from_path api_key web_ui req =
      route_response fs mime_from_path web_ui req.path := by
    unfold handle_request
    rw [hauth]
  refine ⟨fun h => ?_, fun h => ?_, fun h1 h2 => ?_, rfl⟩ <;>
    rw [hroute] <;> unfold route_response
  · rw [h]
    rfl
  · rw [h]
    rfl
  · split
    · exact absurd (by assumption) h1
    · exact absurd (by assumption) h2
    · rfl

/-- Witness for `routing_by_first_segment` at concrete requests. -/
theorem routing_by_first_segment_witness :
    handle_request (fun _ => none) (fun _ => "text/plain") none "chatbot-ui"
      { path := "/echo", authorization := none } = .direct echo_response :=
  (routing_by_first_segment (fun _ => none) (fun _ => "text/plain") none "chatbot-ui"
    { path := "/echo", authorization := none } rfl).1 (by decide)

/-- C6: the effective merge policy stored in the server configuration
at startup is `LastUserMessage` when `SystemMessage` was configured but
the chat model's prompt template has no system prompt, and the
configured policy unchanged in every other case; it is computed once
during `startup` and `handle_request` never reads the configured policy
again. -/
theorem rag_policy_downgrade (is_valid_url : String → Bool) (cli : Cli)
    (sc : ServerConfig) (h : startup is_valid_url cli = .ok sc) :
    sc.policy =
      if cli.policy = .SystemMessage ∧ (chatTemplate cli).has_system_prompt = false
      then .LastUserMessage else cli.policy := by
  unfold startup at h
  split at h
  · cases h
  · split at h
    · cases h
    · split at h
      · cases h
      · cases h
        show effectivePolicy cli.policy (chatTemplate cli) = _
        unfold effectivePolicy
        rcases hp : cli.policy <;>
          rcases hb : (chatTemplate cli).has_system_prompt <;> simp

/-- The `Cli` fields of a startup configured with the `SystemMessage`
policy and a chat prompt template without system prompt. -/
def cliNoSys : Cli :=
  { model_name := ["chat-model", "embedding-model"]
    model_alias := ["default", "embedding"]
    ctx_size := [4096, 384]
    prompt_template := [{ has_system_prompt := false }, { has_system_prompt := false }]
    batch_size := [512, 512]
    ubatch_size := [512, 512]
    policy := .SystemMessage
    qdrant_url := "http://127.0.0.1:6333"
    qdrant_collection_name := ["default"]
    qdrant_limit := [5]
    qdrant_score_threshold := [{ bits := 0 }] }

/-- Witness for `rag_policy_downgrade`: a startup configured with
`SystemMessage` and a chat template without system prompt stores
`LastUserMessage`. -/
theorem rag_policy_downgrade_witness :
    (ServerConfig.mk
      [{ url := "http://127.0.0.1:6333", collection_name := "default",
         limit := 5, score_threshold := { bits := 0 } }]
      .LastUserMessage).policy =
      if cliNoSys.policy = .SystemMessage ∧
          (chatTemplate cliNoSys).has_system_prompt = false
      then .LastUserMessage else cliNoSys.policy :=
  rag_policy_downgrade (fun _ => true) cliNoSys
    (ServerConfig.mk
      [{ url := "http://127.0.0.1:6333", collection_name := "default",
         limit := 5, score_threshold := { bits := 0 } }]
      .LastUserMessage) rfl

/-- C9: the claim that any header value of the form `<anything> k` is
accepted for configured key `k` is false when `<anything>` itself
contains a space: the gate only looks at the second single-space
field. -/
theorem scheme_with_space_rejected :
    authGate (some (.valid ("x y" ++ " " ++ "secret"))) (some "secret") =
      some (error.unauthorized "Invalid API key.") := by decide

/-- C9 (amended): the gate compares the second single-space-separated
field of the header value against the configured key and never inspects
the scheme word: `<scheme> k` is accepted for every space-free scheme
word and space-free key, and a header with no second field is compared
as the empty string. -/
theorem second_space_field_checked (w k s : List Char)
    (hw : ' ' ∉ w) (hk : ' ' ∉ k) (hs : ' ' ∉ s) (hsne : s ≠ []) :
    authGate (some (.valid ⟨w ++ ' ' :: k⟩)) (some ⟨k⟩) = none ∧
    bearer_token ⟨s⟩ = [] ∧
    authGate (some (.valid ⟨s⟩)) (some ⟨k⟩) =
      (if k = [] then none else some (error.unauthorized "Invalid API key.")) := by
  have hdata : (String.mk k).data = k := rfl
  have hbt : bearer_token ⟨w ++ ' ' :: k⟩ = k := by
    show ((split_on_char ' ' (w ++ ' ' :: k)).get? 1).getD [] = k
    rw [split_on_char_append ' ' w k hw, split_on_char_no_sep ' ' k hk]
    rfl
  have hbs : bearer_token ⟨s⟩ = [] := by
    show ((split_on_char ' ' s).get? 1).getD [] = []
    rw [split_on_char_no_sep ' ' s hs]
    rfl
  have hemp1 : (HeaderValue.valid ⟨w ++ ' ' :: k⟩).is_empty = false := by
    show (w ++ ' ' :: k).isEmpty = false
    cases w <;> rfl
  have hemp2 : (HeaderValue.valid ⟨s⟩).is_empty = false := by
    show s.isEmpty = false
    cases s with
    | nil => exact absurd rfl hsne
    | cons c t => rfl
  refine ⟨?_, hbs, ?_⟩
  · simp [authGate, hemp1, hbt, hdata]
  · by_cases hk0 : k = [] <;> simp [authGate, hemp2, hbs, hdata, hk0]

/-- Witness for `second_space_field_checked`: the header
`Bearer secret` is accepted for key `secret`, and a one-word header is
compared as the empty token. -/
theorem second_space_field_checked_witness :
    authGate (some (.valid ⟨"Bearer".data ++ ' ' :: "secret".data⟩))
      (some ⟨"secret".data⟩) = none ∧
    bearer_token ⟨"Token".data⟩ = [] :=
  ⟨(second_space_field_checked "Bearer".data "secret".data "Token".data
      (by decide) (by decide) (by decide) (by decide)).1,
   (second_space_field_checked "Bearer".data "secret".data "Token".data
      (by decide) (by decide) (by decide) (by decide)).2.1⟩


/-- A successful run of the construction loop builds one config per
collection name. -/
lemma mkConfigsAux_length (cli : Cli) :
    ∀ (names : List String) (idx : Nat) (l : List QdrantConfig),
      mkConfigsAux cli idx names = some l → l.length = names.length := by
  intro names
  induction names with
  | nil =>
    intro idx l h
    cases h
    rfl
  | cons n rest ih =>
    intro idx l h
    unfold mkConfigsAux at h
    cases hc : mkQdrantConfig cli idx n with
    | none => rw [hc] at h; cases h
    | some c =>
      rw [hc] at h
      cases hr : mkConfigsAux cli (idx + 1) rest with
      | none => rw [hr] at h; cases h
      | some cs =>
        rw [hr] at h
        cases h
        simp [ih (idx + 1) cs hr]

/-- A successful run of the construction loop places at position `j`
exactly the config the loop body builds for the `j`-th collection
name. -/
lemma mkConfigsAux_get (cli : Cli) :
    ∀ (names : List String) (idx : Nat) (l : List QdrantConfig),
      mkConfigsAux cli idx names = some l →
      ∀ j, j < names.length →
        l.get? j = mkQdrantConfig cli (idx + j) ((names.get? j).getD "") := by
  intro names
  induction names with
  | nil =>
    intro idx l _ j hj
    exact absurd hj (by simp)
  | cons n rest ih =>
    intro idx l h j hj
    unfold mkConfigsAux at h
    cases hc : mkQdrantConfig cli idx n with
    | none => rw [hc] at h; cases h
    | some c =>
      rw [hc] at h
      cases hr : mkConfigsAux cli (idx + 1) rest with
      | none => rw [hr] at h; cases h
      | some cs =>
        rw [hr] at h
        cases h
        cases j with
        | zero => simpa using hc.symm
        | succ j =>
          have hjr : j < rest.length := by simpa using hj
          have := ih (idx + 1) cs hr j hjr
          have harith : idx + 1 + j = idx + (j + 1) := by omega
          simpa [harith] using this

/-- A config produced by one loop iteration carries the shared URL, the
given collection name, and the broadcast-or-indexed limit and score
threshold. -/
lemma mkQdrantConfig_ok (cli : Cli) (idx : Nat) (n : String) (c : QdrantConfig)
    (h : mkQdrantConfig cli idx n = some c) :
    c = { url := cli.qdrant_url, collection_name := n,
          limit := (if cli.qdrant_limit.length = 1 then cli.qdrant_limit.get? 0
                    else cli.qdrant_limit.get? idx).getD 0,
          score_threshold := (if cli.qdrant_score_threshold.length = 1
                    then cli.qdrant_score_threshold.get? 0
                    else cli.qdrant_score_threshold.get? idx).getD default } := by
  unfold mkQdrantConfig at h
  cases hl : (if cli.qdrant_limit.length = 1 then cli.qdrant_limit.get? 0
              else cli.qdrant_limit.get? idx) with
  | none => rw [hl] at h; cases h
  | some limit =>
    rw [hl] at h
    cases hst : (if cli.qdrant_score_threshold.length = 1
                 then cli.qdrant_score_threshold.get? 0
                 else cli.qdrant_score_threshold.get? idx) with
    | none => rw [hst] at h; cases h
    | some st =>
      rw [hst] at h
      cases h
      rfl

/-- C4: each of the C per-collection configs built by a successful
startup carries the shared Qdrant URL, the i-th collection name, the
single limit when the limit list has one entry and the i-th limit
otherwise, and likewise for the score threshold. -/
theorem qdrant_broadcast_semantics (is_valid_url : String → Bool) (cli : Cli)
    (sc : ServerConfig) (h : startup is_valid_url cli = .ok sc) :
    sc.qdrant_config_vec.length = cli.qdrant_collection_name.length ∧
    ∀ i, i < cli.qdrant_collection_name.length →
      sc.qdrant_config_vec.get? i = some
        { url := cli.qdrant_url,
          collection_name := (cli.qdrant_collection_name.get? i).getD "",
          limit := (if cli.qdrant_limit.length = 1 then cli.qdrant_limit.get? 0
                    else cli.qdrant_limit.get? i).getD 0,
          score_threshold := (if cli.qdrant_score_threshold.length = 1
                    then cli.qdrant_score_threshold.get? 0
                    else cli.qdrant_score_threshold.get? i).getD default } := by
  unfold startup at h
  split at h
  · cases h
  · split at h
    · cases h
    · split at h
      · cases h
      · rename_i vec hvec
        cases h
        unfold mkQdrantConfigs at hvec
        cases haux : mkConfigsAux cli 0 cli.qdrant_collection_name with
        | none => rw [haux] at hvec; cases hvec
        | some v =>
          rw [haux] at hvec
          cases hvec
          have hlen := mkConfigsAux_length cli cli.qdrant_collection_name 0 vec haux
          refine ⟨hlen, fun i hi => ?_⟩
          have hget := mkConfigsAux_get cli cli.qdrant_collection_name 0 vec haux i hi
          rw [Nat.zero_add] at hget
          have hvi : ∃ c, vec.get? i = some c := by
            rw [List.get?_eq_get (by omega)]
            exact ⟨_, rfl⟩
          obtain ⟨c, hc⟩ := hvi
          have hmk : mkQdrantConfig cli i ((cli.qdrant_collection_name.get? i).getD "") =
              some c := by rw [← hget, hc]
          rw [hc, mkQdrantConfig_ok cli i _ c hmk]

/-- The `Cli` fields of a startup with two collections, a single
(broadcast) limit and per-collection score thresholds. -/
def cliBroadcast : Cli :=
  { model_name := ["chat-model", "embedding-model"]
    model_alias := ["default", "embedding"]
    ctx_size := [4096, 384]
    prompt_template := [{ has_system_prompt := true }, { has_system_prompt := false }]
    batch_size := [512, 512]
    ubatch_size := [512, 512]
    policy := .LastUserMessage
    qdrant_url := "http://127.0.0.1:6333"
    qdrant_collection_name := ["a", "b"]
    qdrant_limit := [7]
    qdrant_score_threshold := [{ bits := 1 }, { bits := 2 }] }

/-- Witness for `qdrant_broadcast_semantics`: with one shared limit and
two thresholds, the second config carries the shared limit 7 and the
second threshold. -/
theorem qdrant_broadcast_semantics_witness :
    (ServerConfig.mk
      [{ url := "http://127.0.0.1:6333", collection_name := "a",
         limit := 7, score_threshold := { bits := 1 } },
       { url := "http://127.0.0.1:6333", collection_name := "b",
         limit := 7, score_threshold := { bits := 2 } }]
      .LastUserMessage).qdrant_config_vec.get? 1 = some
      { url := "http://127.0.0.1:6333", collection_name := "b",
        limit := 7, score_threshold := { bits := 2 } } :=
  (qdrant_broadcast_semantics (fun _ => true) cliBroadcast
    (ServerConfig.mk
      [{ url := "http://127.0.0.1:6333", collection_name := "a",
         limit := 7, score_threshold := { bits := 1 } },
       { url := "http://127.0.0.1:6333", collection_name := "b",
         limit := 7, score_threshold := { bits := 2 } }]
      .LastUserMessage) rfl).2 1 (by decide)

/-- Any violated model-list length check makes `validate_models` fail
with an `ArgumentError`. -/
lemma validate_models_fails (cli : Cli)
    (h : cli.model_name.length ≠ 2 ∨ cli.model_alias.length ≠ 2 ∨
         cli.ctx_size.length ≠ 2 ∨ cli.batch_size.length ≠ 2 ∨
         cli.ubatch_size.length ≠ 2 ∨ cli.prompt_template.length ≠ 2) :
    ∃ msg, validate_models cli = .error (.serverError (.ArgumentError msg)) := by
  unfold validate_models
  split
  · exact ⟨_, rfl⟩
  split
  · exact ⟨_, rfl⟩
  split
  · exact ⟨_, rfl⟩
  split
  · exact ⟨_, rfl⟩
  split
  · exact ⟨_, rfl⟩
  split
  · exact ⟨_, rfl⟩
  · rename_i h1 h2 h3 h4 h5 h6
    push_neg at h1 h2 h3 h4 h5 h6
    tauto

/-- C7: a startup in which any of the model-name, model-alias,
context-size, batch-size, ubatch-size or prompt-template lists does not
have exactly two entries fails with an `ArgumentError`; these checks
run before any Qdrant processing, before the core context is
initialized and before the listener is bound. -/
theorem two_model_lists_required (is_valid_url : String → Bool) (cli : Cli)
    (h : cli.model_name.length ≠ 2 ∨ cli.model_alias.length ≠ 2 ∨
         cli.ctx_size.length ≠ 2 ∨ cli.batch_size.length ≠ 2 ∨
         cli.ubatch_size.length ≠ 2 ∨ cli.prompt_template.length ≠ 2) :
    ∃ msg, startup is_valid_url cli = .error (.serverError (.ArgumentError msg)) := by
  obtain ⟨msg, hm⟩ := validate_models_fails cli h
  refine ⟨msg, ?_⟩
  unfold startup
  rw [hm]

/-- The `Cli` fields of a startup missing its embedding model name. -/
def cliOneModel : Cli :=
  { model_name := ["chat-model"]
    model_alias := ["default", "embedding"]
    ctx_size := [4096, 384]
    prompt_template := [{ has_system_prompt := true }, { has_system_prompt := false }]
    batch_size := [512, 512]
    ubatch_size := [512, 512]
    policy := .LastUserMessage
    qdrant_url := "http://127.0.0.1:6333"
    qdrant_collection_name := ["default"]
    qdrant_limit := [5]
    qdrant_score_threshold := [{ bits := 0 }] }

/-- Witness for `two_model_lists_required`: a single model name aborts
startup with an argument error. -/
theorem two_model_lists_required_witness :
    ∃ msg, startup (fun _ => true) cliOneModel =
      .error (.serverError (.ArgumentError msg)) :=
  two_model_lists_required (fun _ => true) cliOneModel (Or.inl (by decide))

/-- C10: `static_response` is total: the path `/` is served as
`/index.html`; a readable file under the root is answered with status
200, its contents and the guessed content type; an unreadable one with
status 404 and the contents of the root's `404.html`, or an empty body
when that is unreadable too. -/
theorem static_response_spec (fs : String → Option String)
    (mime_from_path : String → String) (root path : String) :
    (static_response fs mime_from_path "/" root =
      static_response fs mime_from_path "/index.html" root) ∧
    ((static_response fs mime_from_path path root).status = 200 ∨
      (static_response fs mime_from_path path root).status = 404) ∧
    (∀ c, fs (root ++ "/" ++ (if path = "/" then "/index.html" else path)) = some c →
      static_response fs mime_from_path path root =
        { status := 200,
          content_type := some (mime_from_path (if path = "/" then "/index.html" else path)),
          body := c }) ∧
    (fs (root ++ "/" ++ (if path = "/" then "/index.html" else path)) = none →
      static_response fs mime_from_path path root =
        { status := 404, content_type := some "text/html",
          body := (fs (root ++ "/404.html")).getD "" }) := by
  refine ⟨?_, ?_, ?_, ?_⟩
  · unfold static_response
    rw [if_pos rfl, if_neg (by decide)]
  · unfold static_response
    dsimp only
    cases hfs : fs (root ++ "/" ++ (if path = "/" then "/index.html" else path)) <;>
      simp [hfs]
  · intro c hc
    unfold static_response
    dsimp only
    rw [hc]
  · intro hc
    unfold static_response
    dsimp only
    rw [hc]

/-- Witness for `static_response_spec`: with no readable files at all,
any path is answered 404 with an empty body. -/
theorem static_response_spec_witness :
    static_response (fun _ => none) (fun _ => "text/plain") "/missing.png" "chatbot-ui" =
      { status := 404, content_type := some "text/html", body := "" } :=
  (static_response_spec (fun _ => none) (fun _ => "text/plain")
    "chatbot-ui" "/missing.png").2.2.2 rfl
